import Mathlib

/-!
Verification of the muxprom HTTP-instrumentation middleware (src/prom.go)
against its natural-language specification.

Shallow embedding conventions:
* A byte slice `[]byte` is a `List Nat`.
* The server's real `http.ResponseWriter` is `BaseRW`: it records the exact
  arguments of every forwarded `Write` and `WriteHeader` call, and carries the
  optional hijack capability.  The outcome of each underlying `Write`
  (bytes accepted, error) is external nondeterminism, supplied by a
  `Behavior` oracle indexed by the number of calls made so far.
* `statusWriter` (prom.go lines 23-49) is `StatusWriter`, with its three
  methods `WriteHeader`, `Write`, `Hijack` translated line by line.
* A Go handler's interaction with its response writer is a finite sequence of
  `HAction`s (WriteHeader / Write calls) followed by a normal return or a
  panic; Go errors returned by writes do not stop the action list unless the
  handler chose to stop, which a concrete action list already encodes.
* The three prometheus collectors are observed through a `MetricEvent` trace:
  the middleware (prom.go lines 133-145) emits, in program order, the gauge
  increment, the two histogram observations (labels and, for the size
  histogram, the observed value) and the gauge decrement.  The duration
  histogram's observed value is wall-clock time and is not modelled; its
  labels are.
-/

namespace Muxprom

/-- Models the triple `(net.Conn, *bufio.ReadWriter, error)` returned by
`http.Hijacker.Hijack`; the two handles are opaque identifiers. -/
structure HijackTriple where
  conn : Option Nat
  rw : Option Nat
  err : Option String
  deriving Repr, DecidableEq

/-- The underlying `http.ResponseWriter` handed to the middleware by the
server: records every forwarded call and optionally supports hijacking
(`hijackCap = none` models a writer whose type assertion to `http.Hijacker`
fails; `some t` models a hijacker whose `Hijack()` would return `t`). -/
structure BaseRW where
  calls : List (List Nat)
  headers : List Nat
  hijackCap : Option HijackTriple
  deriving Repr, DecidableEq

/-- Outcome oracle for the underlying writer's `Write`: given the index of
the call (number of writes already received) and the bytes, yields the number
of bytes the sink accepted and an optional error. -/
def Behavior := Nat → List Nat → Nat × Option String

/-- Write on the underlying sink: it receives the bytes unchanged and
answers according to the behavior oracle. -/
def BaseRW.write (β : Behavior) (w : BaseRW) (b : List Nat) :
    BaseRW × Nat × Option String :=
  let r := β w.calls.length b
  ({ w with calls := w.calls ++ [b] }, r.1, r.2)

/-- WriteHeader on the underlying sink: it receives the status unchanged. -/
def BaseRW.writeHeader (w : BaseRW) (s : Nat) : BaseRW :=
  { w with headers := w.headers ++ [s] }

/-- prom.go lines 23-27:
`type statusWriter struct { http.ResponseWriter; status int; length int }`. -/
structure StatusWriter where
  underlying : BaseRW
  status : Nat
  length : Nat
  deriving Repr, DecidableEq

/-- prom.go lines 29-32:
`func (w *statusWriter) WriteHeader(status int) { w.status = status;
w.ResponseWriter.WriteHeader(status) }`. -/
def StatusWriter.WriteHeader (w : StatusWriter) (status : Nat) : StatusWriter :=
  { w with status := status, underlying := w.underlying.writeHeader status }

/-- prom.go lines 34-41:
`func (w *statusWriter) Write(b []byte) (int, error) { if w.status == 0 {
w.status = 200 }; n, err := w.ResponseWriter.Write(b); w.length += n;
return n, err }`. -/
def StatusWriter.Write (β : Behavior) (w : StatusWriter) (b : List Nat) :
    StatusWriter × Nat × Option String :=
  let w := if w.status = 0 then { w with status := 200 } else w
  let r := w.underlying.write β b
  ({ w with underlying := r.1, length := w.length + r.2.1 }, r.2.1, r.2.2)

/-- prom.go lines 43-49:
`func (w *statusWriter) Hijack() (net.Conn, *bufio.ReadWriter, error) {
writer, ok := w.ResponseWriter.(http.Hijacker); if !ok { return nil, nil,
fmt.Errorf("not supported by the underlying writer") }; return
writer.Hijack() }`. -/
def StatusWriter.Hijack (w : StatusWriter) : HijackTriple :=
  match w.underlying.hijackCap with
  | none =>
      { conn := none, rw := none,
        err := some "not supported by the underlying writer" }
  | some t => t

/-- Models `r.URL` through the one method the middleware calls:
`RequestURI()` returns the full request URI (path plus any query). -/
structure URL where
  requestURI : String
  deriving Repr, DecidableEq

/-- An inbound `*http.Request` as the middleware sees it.  `matchedRoute` is
the path template of the mux route that matched (available to handlers and
middleware through the request context, `none` on not-found and
method-not-allowed paths); the middleware under verification never reads it,
but the specification's Route Label is phrased in terms of it. -/
structure Request where
  url : URL
  method : String
  matchedRoute : Option String
  deriving Repr, DecidableEq

/-- One call a Go handler makes on the response writer it was given. -/
inductive HAction where
  | writeHeader (status : Nat)
  | write (b : List Nat)
  deriving Repr, DecidableEq

/-- A Go `http.Handler` as seen through its response writer: for each request,
the calls it performs, and whether it then panics instead of returning. -/
def GoHandler := Request → List HAction × Bool

/-- Executing one handler action against a `statusWriter`. -/
def runAction (β : Behavior) (sw : StatusWriter) : HAction → StatusWriter
  | .writeHeader s => sw.WriteHeader s
  | .write b => (sw.Write β b).1

/-- Executing a handler's whole call sequence against a `statusWriter`. -/
def runActions (β : Behavior) (sw : StatusWriter) : List HAction → StatusWriter
  | [] => sw
  | a :: as => runActions β (runAction β sw a) as

/-- One update to the three prometheus collectors, in the order the
middleware issues them.  Duration observations record their labels only (the
observed value is wall-clock time); size observations also record the
observed byte count. -/
inductive MetricEvent where
  | incInFlight (route method : String)
  | observeDuration (route method status : String)
  | observeRespSize (route method status : String) (size : Nat)
  | decInFlight (route method : String)
  deriving Repr, DecidableEq

/-- The route label carried by a metric event. -/
def MetricEvent.route : MetricEvent → String
  | .incInFlight r _ => r
  | .observeDuration r _ _ => r
  | .observeRespSize r _ _ _ => r
  | .decInFlight r _ => r

/-- The method label carried by a metric event. -/
def MetricEvent.method : MetricEvent → String
  | .incInFlight _ m => m
  | .observeDuration _ m _ => m
  | .observeRespSize _ m _ _ => m
  | .decInFlight _ m => m

/-- The status label of the first duration-histogram observation in a trace. -/
def durationStatus : List MetricEvent → Option String
  | [] => none
  | .observeDuration _ _ s :: _ => some s
  | _ :: t => durationStatus t

/-- The status label of the first size-histogram observation in a trace. -/
def respSizeStatus : List MetricEvent → Option String
  | [] => none
  | .observeRespSize _ _ s _ :: _ => some s
  | _ :: t => respSizeStatus t

/-- The observed value of the first size-histogram observation in a trace. -/
def respSizeValue : List MetricEvent → Option Nat
  | [] => none
  | .observeRespSize _ _ _ n :: _ => some n
  | _ :: t => respSizeValue t

/-- Net change a trace applies to the in-flight gauge at key `(route, method)`:
increments minus decrements. -/
def inFlightNet (t : List MetricEvent) (route method : String) : Int :=
  (t.filter (· = .incInFlight route method)).length -
    (t.filter (· = .decInFlight route method)).length

/-- A handler after instrumentation: given the request and the server's
response writer, it yields the writer's final state, the metric-event trace,
and whether the request ended in a panic. -/
def InstrumentedHandler := Request → BaseRW → BaseRW × List MetricEvent × Bool

/-- Models `mux.MiddlewareFunc`, specialised to wrapping a plain handler. -/
def MiddlewareFunc := GoHandler → InstrumentedHandler

/-- prom.go lines 133-145, the instrumentation middleware:

`routeName := r.URL.RequestURI()` — always the raw URI, matched or not;
`reqInFlight.WithLabelValues(routeName, r.Method).Inc()`;
`sw := statusWriter{ResponseWriter: w}` — fresh observer, zero status/length;
`next.ServeHTTP(&sw, r)` — if the handler panics, nothing after this line
runs (there is no defer/recover in the middleware, so the panic propagates);
`reqDurationHistogram.WithLabelValues(routeName, r.Method,
fmt.Sprintf("%d", sw.status)).Observe(...)`;
`reqRespSizeHistogram.WithLabelValues(routeName, r.Method,
fmt.Sprintf("%d", sw.status)).Observe(float64(sw.length))`;
`reqInFlight.WithLabelValues(routeName, r.Method).Dec()`. -/
def middleware (β : Behavior) : MiddlewareFunc := fun next r w =>
  let routeName := r.url.requestURI
  let hres := next r
  let sw := runActions β { underlying := w, status := 0, length := 0 } hres.1
  if hres.2 then
    (sw.underlying, [.incInFlight routeName r.method], true)
  else
    (sw.underlying,
      [.incInFlight routeName r.method,
       .observeDuration routeName r.method (toString sw.status),
       .observeRespSize routeName r.method (toString sw.status) sw.length,
       .decInFlight routeName r.method],
      false)

/-- Route Label as the specification defines it (spec section 3): "a string
key identifying the matched request path template (or raw URI if no match)".
Stated from the spec's words, for comparison with what `middleware`
actually uses. -/
def specRouteLabel (r : Request) : String :=
  r.matchedRoute.getD r.url.requestURI

/-- A route registered on the mux router (name, allowed methods, path),
as built by `Name(...).Methods(...).Path(...).Handler(...)` in `New`. -/
structure MuxRoute where
  name : String
  methods : List String
  path : String
  deriving Repr, DecidableEq

/-- The `*mux.Router` surface muxprom touches: registered routes, the
middleware chain added with `Use`, and the two fallback handler fields
(`nil` when unset, as in Go). -/
structure MuxRouter where
  routes : List MuxRoute
  middlewares : List MiddlewareFunc
  notFoundHandler : Option GoHandler
  methodNotAllowedHandler : Option GoHandler

/-- prom.go lines 51-63, the exported configuration fields of `MuxProm`
(the three unexported collector fields are observed through the metric-event
trace instead).  Bucket boundaries are rationals, standing for Go float64
values that are all exactly representable. -/
structure MuxProm where
  Router : Option MuxRouter
  Namespace : String
  MetricsPath : String
  MetricsRouteName : String
  DurationBucket : List Rat
  RespSizeBucket : List Rat

/-- prom.go line 17. -/
def defaultMetricsPath : String := "/metrics"

/-- prom.go line 18. -/
def defaultMetricsRouteName : String := "metrics"

/-- prom.go line 19. -/
def defaultNamespace : String := "muxprom"

/-- prom.go line 20. -/
def defaultDurationBucket : List Rat :=
  [1/10000, 5/10000, 1/1000, 5/1000, 1/100, 25/1000, 5/100, 1/10, 25/100,
   5/10, 1, 5/2, 5, 10]

/-- prom.go line 21 (`bytefmt.KILOBYTE = 1024`, `bytefmt.MEGABYTE = 2^20`). -/
def defaultRespSizeBucket : List Rat :=
  [0, 512, 1024, 100 * 1024, 512 * 1024, 1048576, 5 * 1048576, 10 * 1048576,
   25 * 1048576, 50 * 1048576, 100 * 1048576, 500 * 1048576]

/-- prom.go lines 65-69, functional option `Namespace`. -/
def Namespace (ns : String) : MuxProm → MuxProm := fun prom =>
  { prom with Namespace := ns }

/-- prom.go lines 71-75, functional option `MetricsPath`. -/
def MetricsPath (p : String) : MuxProm → MuxProm := fun prom =>
  { prom with MetricsPath := p }

/-- prom.go lines 77-81, functional option `MetricsRouteName`. -/
def MetricsRouteName (rn : String) : MuxProm → MuxProm := fun prom =>
  { prom with MetricsRouteName := rn }

/-- prom.go lines 83-87, functional option `DurationBucket`. -/
def DurationBucket (db : List Rat) : MuxProm → MuxProm := fun prom =>
  { prom with DurationBucket := db }

/-- prom.go lines 89-93, functional option `RespSizeBucket`. -/
def RespSizeBucket (rsb : List Rat) : MuxProm → MuxProm := fun prom =>
  { prom with RespSizeBucket := rsb }

/-- prom.go lines 95-99, functional option `Router`. -/
def Router (r : MuxRouter) : MuxProm → MuxProm := fun prom =>
  { prom with Router := some r }

/-- prom.go lines 102-111 of `New`: the defaulted struct literal (its
`Router` pointer field starts nil) with the options applied in order. -/
def newBase (options : List (MuxProm → MuxProm)) : MuxProm :=
  options.foldl (fun p option => option p)
    { Router := none,
      Namespace := defaultNamespace,
      MetricsPath := defaultMetricsPath,
      MetricsRouteName := defaultMetricsRouteName,
      DurationBucket := defaultDurationBucket,
      RespSizeBucket := defaultRespSizeBucket }

/-- prom.go lines 101-125, `New`: build the defaulted struct, apply the
options, run `p.init()` (collector registration, observed through the event
trace), then either register the metrics route on the router or — when
`p.Router` is still nil — call `log.Fatal("You need to set Router")`, which
terminates the process instead of returning an instance; the fatal exit is
modelled as `Except.error` carrying the fatal message. -/
def New (options : List (MuxProm → MuxProm)) : Except String MuxProm :=
  let p := newBase options
  match p.Router with
  | some rt =>
      .ok { p with
            Router := some { rt with
              routes := rt.routes ++
                [{ name := p.MetricsRouteName, methods := ["GET"],
                   path := p.MetricsPath }] } }
  | none => .error "You need to set Router"

/-- net/http's `http.NotFoundHandler()`: replies with status 404 and the body
"404 page not found" (ending in a newline), and never panics. -/
def goNotFoundHandler : GoHandler := fun _ =>
  ([.writeHeader 404,
    .write (("404 page not found" ++ "\n").data.map Char.toNat)], false)

/-- prom.go lines 190-192, the default method-not-allowed handler built
inside `WrapMethodNotAllowedHandler`: `w.WriteHeader(http.StatusMethodNotAllowed)`. -/
def goMethodNotAllowedHandler : GoHandler := fun _ =>
  ([.writeHeader 405], false)

/-- prom.go lines 181-186, `WrapNotFoundHandler`: default a nil handler to
`http.NotFoundHandler()`, then wrap it in the middleware. -/
def WrapNotFoundHandler (h : Option GoHandler) (m : MiddlewareFunc) :
    InstrumentedHandler :=
  m (h.getD goNotFoundHandler)

/-- prom.go lines 188-195, `WrapMethodNotAllowedHandler`: default a nil
handler to a bare 405 writer, then wrap it in the middleware. -/
def WrapMethodNotAllowedHandler (h : Option GoHandler) (m : MiddlewareFunc) :
    InstrumentedHandler :=
  m (h.getD goMethodNotAllowedHandler)

/-- The router after `Instrument` ran: the fallback fields now hold
instrumented handlers. -/
structure InstrumentedRouter where
  routes : List MuxRoute
  middlewares : List MiddlewareFunc
  notFoundHandler : InstrumentedHandler
  methodNotAllowedHandler : InstrumentedHandler

/-- prom.go lines 127-131, `Instrument`:
`prom.Router.Use(prom.middleware)` appends the middleware to the chain;
`prom.Router.NotFoundHandler = WrapNotFoundHandler(prom.Router.NotFoundHandler,
prom.middleware)`;
`prom.Router.MethodNotAllowedHandler = WrapMethodNotAllowedHandler(
prom.Router.MethodNotAllowedHandler, prom.middleware)` — all three use the
same `prom.middleware` value. -/
def Instrument (β : Behavior) (rt : MuxRouter) : InstrumentedRouter :=
  { routes := rt.routes,
    middlewares := rt.middlewares ++ [middleware β],
    notFoundHandler := WrapNotFoundHandler rt.notFoundHandler (middleware β),
    methodNotAllowedHandler :=
      WrapMethodNotAllowedHandler rt.methodNotAllowedHandler (middleware β) }

/-! Concrete fixtures used by counterexamples and witnesses. -/

/-- A fresh underlying writer with no hijack capability. -/
def w0 : BaseRW := { calls := [], headers := [], hijackCap := none }

/-- A sink behavior that accepts every write in full, with no error. -/
def βfull : Behavior := fun _ b => (b.length, none)

/-- A sink behavior that accepts only 3 bytes of every write and then fails. -/
def βfail : Behavior := fun _ _ => (3, some "sink failed")

/-- A GET request that matched the route template "/a" but whose full
request URI, query string included, is "/a?x=1". -/
def rqA : Request :=
  { url := { requestURI := "/a?x=1" }, method := "GET",
    matchedRoute := some "/a" }

/-- A GET request to an unrouted path. -/
def rqX : Request :=
  { url := { requestURI := "/x" }, method := "GET", matchedRoute := none }

/-- A handler that panics immediately, performing no writes. -/
def crashingHandler : GoHandler := fun _ => ([], true)

/-- A handler that sets status 404 and then attempts to set status 500. -/
def h404then500 : GoHandler := fun _ =>
  ([.writeHeader 404, .writeHeader 500], false)

/-! Component lemmas about the `statusWriter` methods. -/

theorem Write_fst_underlying (β : Behavior) (sw : StatusWriter) (b : List Nat) :
    ((sw.Write β b).1).underlying =
      { sw.underlying with calls := sw.underlying.calls ++ [b] } := by
  by_cases h : sw.status = 0 <;>
    simp [StatusWriter.Write, BaseRW.write, h]

theorem Write_fst_status (β : Behavior) (sw : StatusWriter) (b : List Nat) :
    ((sw.Write β b).1).status = if sw.status = 0 then 200 else sw.status := by
  by_cases h : sw.status = 0 <;>
    simp [StatusWriter.Write, BaseRW.write, h]

theorem Write_fst_length (β : Behavior) (sw : StatusWriter) (b : List Nat) :
    ((sw.Write β b).1).length =
      sw.length + (β sw.underlying.calls.length b).1 := by
  by_cases h : sw.status = 0 <;>
    simp [StatusWriter.Write, BaseRW.write, h]

theorem Write_snd (β : Behavior) (sw : StatusWriter) (b : List Nat) :
    (sw.Write β b).2 = β sw.underlying.calls.length b := by
  by_cases h : sw.status = 0 <;>
    simp [StatusWriter.Write, BaseRW.write, h]

theorem WriteHeader_components (sw : StatusWriter) (s : Nat) :
    (sw.WriteHeader s).status = s ∧
    (sw.WriteHeader s).length = sw.length ∧
    (sw.WriteHeader s).underlying =
      { sw.underlying with headers := sw.underlying.headers ++ [s] } := by
  refine ⟨rfl, rfl, rfl⟩

/-! Lemmas about running a whole action sequence. -/

theorem runActions_append (β : Behavior) (sw : StatusWriter)
    (l1 l2 : List HAction) :
    runActions β sw (l1 ++ l2) = runActions β (runActions β sw l1) l2 := by
  induction l1 generalizing sw with
  | nil => rfl
  | cons a t ih => simpa [runActions] using ih (runAction β sw a)

/-- The write payloads of an action sequence, in order. -/
def writesOf : List HAction → List (List Nat)
  | [] => []
  | .write b :: t => b :: writesOf t
  | .writeHeader _ :: t => writesOf t

/-- The statuses an action sequence sets explicitly, in order. -/
def headersOf : List HAction → List Nat
  | [] => []
  | .writeHeader s :: t => s :: headersOf t
  | .write _ :: t => headersOf t

theorem runActions_calls (β : Behavior) (acts : List HAction)
    (sw : StatusWriter) :
    (runActions β sw acts).underlying.calls =
      sw.underlying.calls ++ writesOf acts := by
  induction acts generalizing sw with
  | nil => simp [runActions, writesOf]
  | cons a t ih =>
      cases a with
      | writeHeader s =>
          simp [runActions, runAction, writesOf, ih, StatusWriter.WriteHeader,
            BaseRW.writeHeader]
      | write b =>
          simp [runActions, runAction, writesOf, ih, Write_fst_underlying]

theorem runActions_headers (β : Behavior) (acts : List HAction)
    (sw : StatusWriter) :
    (runActions β sw acts).underlying.headers =
      sw.underlying.headers ++ headersOf acts := by
  induction acts generalizing sw with
  | nil => simp [runActions, headersOf]
  | cons a t ih =>
      cases a with
      | writeHeader s =>
          simp [runActions, runAction, headersOf, ih, StatusWriter.WriteHeader,
            BaseRW.writeHeader]
      | write b =>
          simp [runActions, runAction, headersOf, ih, Write_fst_underlying]

theorem runActions_hijackCap (β : Behavior) (acts : List HAction)
    (sw : StatusWriter) :
    (runActions β sw acts).underlying.hijackCap =
      sw.underlying.hijackCap := by
  induction acts generalizing sw with
  | nil => rfl
  | cons a t ih =>
      cases a with
      | writeHeader s =>
          simp [runActions, runAction, ih, StatusWriter.WriteHeader,
            BaseRW.writeHeader]
      | write b =>
          simp [runActions, runAction, ih, Write_fst_underlying]

theorem runActions_writes_status_ne_zero (β : Behavior) (bs : List (List Nat))
    (sw : StatusWriter) (h : sw.status ≠ 0) :
    (runActions β sw (bs.map HAction.write)).status = sw.status := by
  induction bs generalizing sw with
  | nil => rfl
  | cons b t ih =>
      have h2 : ((sw.Write β b).1).status = sw.status := by
        rw [Write_fst_status]; simp [h]
      simp only [List.map, runActions, runAction]
      rw [ih _ (by rw [h2]; exact h), h2]

theorem runActions_writes_status (β : Behavior) (b : List Nat)
    (bs : List (List Nat)) (sw : StatusWriter) :
    (runActions β sw (HAction.write b :: bs.map HAction.write)).status =
      if sw.status = 0 then 200 else sw.status := by
  have h2 := Write_fst_status β sw b
  simp only [runActions, runAction]
  by_cases h : sw.status = 0
  · rw [runActions_writes_status_ne_zero β bs _ (by rw [h2]; simp [h]), h2]
  · rw [runActions_writes_status_ne_zero β bs _ (by rw [h2]; simp [h]), h2]

theorem runActions_writes_length (β : Behavior) (bs : List (List Nat))
    (sw : StatusWriter) (hβ : ∀ i b, β i b = (b.length, none)) :
    (runActions β sw (bs.map HAction.write)).length =
      sw.length + (bs.map List.length).sum := by
  induction bs generalizing sw with
  | nil => simp [runActions]
  | cons b t ih =>
      simp only [List.map, runActions, runAction]
      rw [ih, Write_fst_length, hβ]
      simp [Nat.add_assoc]

theorem runActions_last_writeHeader (β : Behavior) (acts : List HAction)
    (s : Nat) (sw : StatusWriter) :
    (runActions β sw (acts ++ [.writeHeader s])).status = s := by
  rw [runActions_append]
  rfl

/-! Shape of the middleware's metric-event trace. -/

theorem middleware_trace_of_return (β : Behavior) (h : GoHandler) (r : Request)
    (w : BaseRW) (hret : (h r).2 = false) :
    middleware β h r w =
      ((runActions β { underlying := w, status := 0, length := 0 }
          (h r).1).underlying,
       [.incInFlight r.url.requestURI r.method,
        .observeDuration r.url.requestURI r.method
          (toString (runActions β { underlying := w, status := 0, length := 0 }
            (h r).1).status),
        .observeRespSize r.url.requestURI r.method
          (toString (runActions β { underlying := w, status := 0, length := 0 }
            (h r).1).status)
          (runActions β { underlying := w, status := 0, length := 0 }
            (h r).1).length,
        .decInFlight r.url.requestURI r.method],
       false) := by
  simp [middleware, hret]

theorem middleware_trace_of_panic (β : Behavior) (h : GoHandler) (r : Request)
    (w : BaseRW) (hp : (h r).2 = true) :
    middleware β h r w =
      ((runActions β { underlying := w, status := 0, length := 0 }
          (h r).1).underlying,
       [.incInFlight r.url.requestURI r.method], true) := by
  simp [middleware, hp]

/-- Every event the middleware emits carries the request's URI as route label
and the request's verb as method label. -/
theorem middleware_trace_labels (β : Behavior) (next : GoHandler) (r : Request)
    (w : BaseRW) :
    ((middleware β next r w).2.1).map MetricEvent.route =
      List.replicate ((middleware β next r w).2.1).length r.url.requestURI ∧
    ((middleware β next r w).2.1).map MetricEvent.method =
      List.replicate ((middleware β next r w).2.1).length r.method := by
  cases hp : (next r).2 with
  | false =>
      rw [middleware_trace_of_return β next r w hp]
      exact ⟨rfl, rfl⟩
  | true =>
      rw [middleware_trace_of_panic β next r w hp]
      exact ⟨rfl, rfl⟩

/-! Claim theorems. -/

/-- C1, counterexample: on a request that matched route template "/a" but
whose full URI is "/a?x=1", every collector is labelled with the raw URI
"/a?x=1", not with the matched template — refuting the claim that the Route
Label is the matched path template whenever a route matched. -/
theorem C1_counterexample :
    rqA.matchedRoute = some "/a" ∧
    ((middleware βfull (fun _ => ([], false)) rqA w0).2.1).map
        MetricEvent.route = ["/a?x=1", "/a?x=1", "/a?x=1", "/a?x=1"] ∧
    specRouteLabel rqA = "/a" ∧
    (("/a?x=1" : String) == "/a") = false := by
  refine ⟨rfl, rfl, rfl, by decide⟩

/-- C1, amended: the Route Label used for all three metric collectors is
always the full request URI (`r.URL.RequestURI()`), whether or not a route
matched; the matched route's path template is never consulted. -/
theorem C1_route_label_always_request_uri (β : Behavior) (next : GoHandler)
    (r : Request) (w : BaseRW) :
    ((middleware β next r w).2.1).map MetricEvent.route =
      List.replicate ((middleware β next r w).2.1).length r.url.requestURI :=
  (middleware_trace_labels β next r w).1

/-- C2, counterexample: a handler that sets status 404 and then 500 records
Status Label "500" in both histograms, not "404" — the first status set does
not win. -/
theorem C2_counterexample :
    durationStatus ((middleware βfull h404then500 rqA w0).2.1) = some "500" ∧
    respSizeStatus ((middleware βfull h404then500 rqA w0).2.1) = some "500" ∧
    (("500" : String) == "404") = false := by
  refine ⟨rfl, rfl, by decide⟩

/-- C2, amended: exactly one status value is attributed per request, but the
last status set wins: every status-setting call overwrites the recorded
status, so a handler whose final status-setting call passes `s` records
Status Label `toString s` in both histograms. -/
theorem C2_last_status_wins (β : Behavior) (acts : List HAction) (s : Nat)
    (r : Request) (w : BaseRW) (sw : StatusWriter) :
    (sw.WriteHeader s).status = s ∧
    durationStatus ((middleware β
        (fun _ => (acts ++ [.writeHeader s], false)) r w).2.1) =
      some (toString s) ∧
    respSizeStatus ((middleware β
        (fun _ => (acts ++ [.writeHeader s], false)) r w).2.1) =
      some (toString s) := by
  have hm := middleware_trace_of_return β
    (fun _ => (acts ++ [.writeHeader s], false)) r w rfl
  refine ⟨rfl, ?_, ?_⟩ <;>
    rw [hm] <;>
    simp [durationStatus, respSizeStatus, runActions_last_writeHeader]

/-- C3: the middleware's bookkeeping is straight-line, with no
defer/recover, so when the wrapped handler panics the in-flight gauge is
incremented but never decremented: its net change for that request is 1,
not 0 (while a normally returning handler does net to 0). -/
theorem C3_panic_leaks_inflight :
    (middleware βfull crashingHandler rqX w0).2 =
      ([.incInFlight "/x" "GET"], true) ∧
    inFlightNet ((middleware βfull crashingHandler rqX w0).2.1) "/x" "GET"
      = 1 ∧
    inFlightNet ((middleware βfull (fun _ => ([], false)) rqX w0).2.1)
      "/x" "GET" = 0 := by
  refine ⟨rfl, by decide, by decide⟩

/-- A fresh `statusWriter` over the fixture sink, as the middleware builds
one: `statusWriter{ResponseWriter: w}` (zero status, zero length). -/
def sw0 : StatusWriter := { underlying := w0, status := 0, length := 0 }

theorem writesOf_map_write (bs : List (List Nat)) :
    writesOf (bs.map HAction.write) = bs := by
  induction bs with
  | nil => rfl
  | cons b t ih => simp [writesOf, ih]

theorem headersOf_map_write (bs : List (List Nat)) :
    headersOf (bs.map HAction.write) = [] := by
  induction bs with
  | nil => rfl
  | cons b t ih => simp [headersOf, ih]

/-- C4: a fresh observer receiving a body write with no status yet set
records status 200 — before the forwarding outcome is even known (the sink
behavior `β` is arbitrary, so this holds even if the forward fails) — and a
handler that only writes body bytes yields Status Label "200" in both
histograms. -/
theorem C4_status_defaults_to_200 (β : Behavior) (r : Request) (w : BaseRW)
    (b : List Nat) (bs : List (List Nat)) :
    ((StatusWriter.Write β
        { underlying := w, status := 0, length := 0 } b).1).status = 200 ∧
    durationStatus ((middleware β
        (fun _ => ((b :: bs).map HAction.write, false)) r w).2.1) =
      some "200" ∧
    respSizeStatus ((middleware β
        (fun _ => ((b :: bs).map HAction.write, false)) r w).2.1) =
      some "200" := by
  have hm := middleware_trace_of_return β
    (fun _ => ((b :: bs).map HAction.write, false)) r w rfl
  refine ⟨by rw [Write_fst_status]; simp, ?_, ?_⟩ <;>
    rw [hm] <;>
    simp [durationStatus, respSizeStatus, runActions_writes_status] <;>
    rfl

/-- C5: every body write is forwarded to the underlying sink unchanged (the
sink's call log gains exactly the written payloads, in order, and its header
log is untouched), and when the sink accepts every write in full the
response-size observation is the total byte count of the writes. -/
theorem C5_write_forwarding_and_size (β : Behavior) (r : Request) (w : BaseRW)
    (bs : List (List Nat)) (hβ : ∀ i b, β i b = (b.length, none)) :
    ((middleware β (fun _ => (bs.map HAction.write, false)) r w).1).calls =
      w.calls ++ bs ∧
    ((middleware β (fun _ => (bs.map HAction.write, false)) r w).1).headers =
      w.headers ∧
    respSizeValue ((middleware β
        (fun _ => (bs.map HAction.write, false)) r w).2.1) =
      some ((bs.map List.length).sum) := by
  have hm := middleware_trace_of_return β
    (fun _ => (bs.map HAction.write, false)) r w rfl
  refine ⟨?_, ?_, ?_⟩ <;> rw [hm]
  · rw [show ((runActions β { underlying := w, status := 0, length := 0 }
        (bs.map HAction.write)).underlying.calls) = _ from
      runActions_calls β _ _]
    simp [writesOf_map_write]
  · rw [show ((runActions β { underlying := w, status := 0, length := 0 }
        (bs.map HAction.write)).underlying.headers) = _ from
      runActions_headers β _ _]
    simp [headersOf_map_write]
  · simp [respSizeValue, runActions_writes_length β bs _ hβ]

/-- C5 witness: body writes of 10 then 20 bytes through a fully accepting
sink are forwarded verbatim and observed as a response size of 30. -/
theorem C5_witness :
    ((middleware βfull
        (fun _ => ([List.replicate 10 7, List.replicate 20 9].map
          HAction.write, false)) rqA w0).1).calls =
      w0.calls ++ [List.replicate 10 7, List.replicate 20 9] ∧
    ((middleware βfull
        (fun _ => ([List.replicate 10 7, List.replicate 20 9].map
          HAction.write, false)) rqA w0).1).headers = w0.headers ∧
    respSizeValue ((middleware βfull
        (fun _ => ([List.replicate 10 7, List.replicate 20 9].map
          HAction.write, false)) rqA w0).2.1) = some 30 := by
  have h := C5_write_forwarding_and_size βfull rqA w0
    [List.replicate 10 7, List.replicate 20 9] (fun _ _ => rfl)
  exact ⟨h.1, h.2.1, by rw [h.2.2]; decide⟩

/-- C6: when the underlying sink accepts only part of a write and fails, the
observer returns that partial count and error unmodified, still adds the
partial count to its running length total, and has forwarded the bytes. -/
theorem C6_write_error_partial_count (β : Behavior) (sw : StatusWriter)
    (b : List Nat) (n : Nat) (e : String)
    (hβ : β sw.underlying.calls.length b = (n, some e)) :
    (sw.Write β b).2 = (n, some e) ∧
    ((sw.Write β b).1).length = sw.length + n ∧
    ((sw.Write β b).1).underlying.calls = sw.underlying.calls ++ [b] := by
  refine ⟨?_, ?_, ?_⟩
  · rw [Write_snd, hβ]
  · rw [Write_fst_length, hβ]
  · rw [Write_fst_underlying]

/-- C6 witness: a 10-byte write against a sink that accepts 3 bytes and then
fails returns `(3, some "sink failed")` and leaves the running total at 3. -/
theorem C6_witness :
    βfail sw0.underlying.calls.length (List.replicate 10 7) =
      (3, some "sink failed") ∧
    ((sw0.Write βfail (List.replicate 10 7)).2 = (3, some "sink failed") ∧
     ((sw0.Write βfail (List.replicate 10 7)).1).length = sw0.length + 3 ∧
     ((sw0.Write βfail (List.replicate 10 7)).1).underlying.calls =
       sw0.underlying.calls ++ [List.replicate 10 7]) :=
  ⟨rfl, C6_write_error_partial_count βfail sw0 (List.replicate 10 7) 3
    "sink failed" rfl⟩

/-- C7: Hijack forwards the underlying sink's hijack result unchanged when
the sink supports the capability, and when it does not, returns nil handles
with the explicit error "not supported by the underlying writer" — an error
value is always present in that case, never a silent success. -/
theorem C7_hijack_passthrough_or_explicit_error (u : BaseRW) (s l : Nat)
    (t : HijackTriple) :
    StatusWriter.Hijack
        { underlying := { u with hijackCap := none },
          status := s, length := l } =
      { conn := none, rw := none,
        err := some "not supported by the underlying writer" } ∧
    ((StatusWriter.Hijack
        { underlying := { u with hijackCap := none },
          status := s, length := l }).err).isSome = true ∧
    StatusWriter.Hijack
        { underlying := { u with hijackCap := some t },
          status := s, length := l } = t := by
  refine ⟨rfl, rfl, rfl⟩

/-- C8: if the Router field is still unset after all options are applied,
`New` ends in `log.Fatal("You need to set Router")` — modelled as the error
outcome — and never returns an instance. -/
theorem C8_new_requires_router (options : List (MuxProm → MuxProm))
    (h : (newBase options).Router = none) :
    New options = .error "You need to set Router" := by
  simp [New, h]

/-- C8 witness: with no options at all the Router field keeps its nil
default, and `New` fails fatally. -/
theorem C8_witness :
    (newBase []).Router = none ∧
    New [] = .error "You need to set Router" :=
  ⟨rfl, C8_new_requires_router [] rfl⟩

/-- Route and method labels of a trace, one pair per event. -/
def labelPairs (t : List MetricEvent) : List (String × String) :=
  t.map (fun e => (e.route, e.method))

theorem middleware_label_pairs (β : Behavior) (next : GoHandler) (r : Request)
    (w : BaseRW) :
    labelPairs ((middleware β next r w).2.1) =
      List.replicate ((middleware β next r w).2.1).length
        (r.url.requestURI, r.method) := by
  cases hp : (next r).2 with
  | false => rw [middleware_trace_of_return β next r w hp]; rfl
  | true => rw [middleware_trace_of_panic β next r w hp]; rfl

/-- C9: `Instrument` appends the one middleware to the router's dispatch
chain and wraps both fallback handlers with that same middleware, so the
dispatch path (any route handler), the not-found path and the
method-not-allowed path all produce traces whose every event is labelled
with the request's URI and verb — identical label semantics on all three. -/
theorem C9_instrument_covers_all_paths (β : Behavior) (rt : MuxRouter)
    (h : GoHandler) (r : Request) (w : BaseRW) :
    (Instrument β rt).middlewares = rt.middlewares ++ [middleware β] ∧
    (Instrument β rt).notFoundHandler r w =
      middleware β (rt.notFoundHandler.getD goNotFoundHandler) r w ∧
    (Instrument β rt).methodNotAllowedHandler r w =
      middleware β (rt.methodNotAllowedHandler.getD goMethodNotAllowedHandler)
        r w ∧
    labelPairs ((middleware β h r w).2.1) =
      List.replicate ((middleware β h r w).2.1).length
        (r.url.requestURI, r.method) ∧
    labelPairs (((Instrument β rt).notFoundHandler r w).2.1) =
      List.replicate (((Instrument β rt).notFoundHandler r w).2.1).length
        (r.url.requestURI, r.method) ∧
    labelPairs (((Instrument β rt).methodNotAllowedHandler r w).2.1) =
      List.replicate
        (((Instrument β rt).methodNotAllowedHandler r w).2.1).length
        (r.url.requestURI, r.method) :=
  ⟨rfl, rfl, rfl, middleware_label_pairs β h r w,
   middleware_label_pairs β (rt.notFoundHandler.getD goNotFoundHandler) r w,
   middleware_label_pairs β
     (rt.methodNotAllowedHandler.getD goMethodNotAllowedHandler) r w⟩

/-- C10: a handler that never writes and never sets a status leaves the
observer's status field at its zero value, so the middleware records Status
Label "0" — not the HTTP default "200" — in both histograms, with an
observed size of 0 and the sink untouched. -/
theorem C10_untouched_status_label_is_zero (β : Behavior) (r : Request)
    (w : BaseRW) :
    middleware β (fun _ => ([], false)) r w =
      (w, [.incInFlight r.url.requestURI r.method,
           .observeDuration r.url.requestURI r.method "0",
           .observeRespSize r.url.requestURI r.method "0" 0,
           .decInFlight r.url.requestURI r.method], false) ∧
    (("0" : String) == "200") = false := by
  refine ⟨?_, by decide⟩
  rw [middleware_trace_of_return β (fun _ => ([], false)) r w rfl]
  simp [runActions]
  rfl

end Muxprom
